import Mathlib

/-! # Verification of the idempotency orchestration subsystem

Shallow embedding of `aws_lambda_powertools/utilities/idempotency/idempotency.py`
and `aws_lambda_powertools/utilities/idempotency/persistence/redis.py`, with the
pieces of the missing `persistence/base.py` (`DataRecord`, `STATUS_CONSTANTS`,
`response_json_as_dict`, layer configuration fields) modelled from the spec.

The Redis store is modelled as an association list from keys to hashes, where a
hash is an association list from attribute names to values.  Values are modelled
as a sum of strings and integers: the repository's own Redis test double
(`MockRedis` in `tests/functional/idempotency/persistence/test_redis_layer.py`)
stores the `hset` mapping verbatim, so integers written by `_put_record` come
back as integers, and the `isinstance(x, str)` branch of `_item_to_data_record`
covers the decoded-wire case where they come back as strings.
-/

namespace Powertools

/-- A value stored in a Redis hash attribute: the Python-level value, which is
either a string or an integer. -/
inductive RVal
  | vstr (s : String)
  | vint (n : Int)
deriving DecidableEq

/-- A Redis hash: attribute name to value, first binding wins. -/
abbrev RedisHash := List (String × RVal)

/-- The Redis keyspace: idempotency key to hash. -/
abbrev RedisStore := List (String × RedisHash)

/-- The exceptions the embedded persistence code can raise.
`keyError` is Python's built-in `KeyError` (raised by `item[attr]` on a missing
attribute); the other two are the idempotency exception types used by the
Redis layer. -/
inductive PyExc
  | keyError
  | itemNotFoundError
  | itemAlreadyExistsError
deriving DecidableEq

/-- `dict.get`: look an attribute up in a hash, `none` when absent. -/
def hget : RedisHash → String → Option RVal
  | [], _ => none
  | (k0, v0) :: rest, k => if k0 = k then some v0 else hget rest k

/-- `dict[attr]`: like `hget` but raising `KeyError` when the attribute is
absent, as Python subscripting does. -/
def pyIndex (h : RedisHash) (k : String) : Except PyExc RVal :=
  match hget h k with
  | some v => .ok v
  | none => .error .keyError

/-- Set one attribute of a hash, overwriting an existing binding. -/
def hashSet : RedisHash → String → RVal → RedisHash
  | [], k, v => [(k, v)]
  | (k0, v0) :: rest, k, v => if k0 = k then (k, v) :: rest else (k0, v0) :: hashSet rest k v

/-- Redis `HSET` with a mapping: merge the mapping's attributes into a hash,
field by field, leaving other attributes untouched. -/
def hashMerge (h mapping : RedisHash) : RedisHash :=
  mapping.foldl (fun acc kv => hashSet acc kv.1 kv.2) h

/-- Look a key up in the keyspace. -/
def storeLookup : RedisStore → String → Option RedisHash
  | [], _ => none
  | (k0, h0) :: rest, key => if k0 = key then some h0 else storeLookup rest key

/-- Redis `HGETALL`: the hash stored under a key, or the empty hash when the
key does not exist. -/
def hgetall (store : RedisStore) (key : String) : RedisHash :=
  (storeLookup store key).getD []

/-- Redis `HSET` at the keyspace level: merge a mapping into the hash under a
key, creating the hash when the key is absent. -/
def storeHset : RedisStore → String → RedisHash → RedisStore
  | [], key, m => [(key, hashMerge [] m)]
  | (k0, h0) :: rest, key, m =>
    if k0 = key then (k0, hashMerge h0 m) :: rest
    else (k0, h0) :: storeHset rest key m

/-- Redis `DEL`: remove a key from the keyspace. -/
def storeDelete (store : RedisStore) (key : String) : RedisStore :=
  store.filter (fun p => ¬ p.1 = key)

/-- Python `str(...)` applied to the result of `item.get(attr)`:
`str(None)` is the four-character string `"None"`. -/
def pyStr : Option RVal → String
  | none => "None"
  | some (.vstr s) => s
  | some (.vint n) => toString n

/-- Python `int(...)` as applied by `_item_to_data_record` and `_put_record`
to a hash value: integers pass through, decimal strings are parsed.  The
layer itself only ever writes integers here, so the string branch mirrors
`int(s)` on the decoded-wire rendering of such an integer. -/
def intOfRVal : RVal → Int
  | .vint n => n
  | .vstr s => (s.toInt?).getD 0

/-- Over the wire (the layer requires `decode_responses=True`) a status value
is a string; `toString` covers the in-model integer case that no writer of
this layer produces. -/
def statusString : RVal → String
  | .vstr s => s
  | .vint n => toString n

/-- Modelled from the spec: `STATUS_CONSTANTS` of the missing
`persistence/base.py`.  The spec's lifecycle enum is
INPROGRESS / COMPLETED / EXPIRED and all call sites compare against
`STATUS_CONSTANTS[name]`; the table maps each name to itself. -/
def STATUS_CONSTANTS (name : String) : String := name

/-- Modelled from the spec: `DataRecord` of the missing `persistence/base.py`
(spec data model): idempotency key, lifecycle status, optional in-progress
expiry timestamp (epoch ms), serialized response data and payload hash.
`status` holds the effective lifecycle status; EXPIRED is a derived state. -/
structure DataRecord where
  idempotency_key : String
  status : String
  in_progress_expiry_timestamp : Option Int := none
  response_data : String := ""
  payload_hash : String := ""
deriving DecidableEq

/-- The deserialized form of a stored response. -/
structure JsonDict where
  raw : String
deriving DecidableEq

/-- Modelled from the spec: `DataRecord.response_json_as_dict` of the missing
`persistence/base.py`.  Per the spec's result serialization contract it turns
the stored `response_data` string back into a dictionary; deserialization is
modelled as tagging the stored string. -/
def DataRecord.response_json_as_dict (r : DataRecord) : JsonDict :=
  ⟨r.response_data⟩

/-- The Redis persistence layer's configuration: the four attribute names from
`RedisCachePersistenceLayer.__init__` with their source defaults, plus the two
fields of the missing `persistence/base.py` the methods read
(`payload_validation_enabled`, `expires_after_seconds`), modelled from the
spec's configuration surface. -/
structure RedisCachePersistenceLayer where
  in_progress_expiry_attr : String := "in_progress_expiration"
  status_attr : String := "status"
  data_attr : String := "data"
  validation_key_attr : String := "validation"
  payload_validation_enabled : Bool := false
  expires_after_seconds : Int := 3600

/-- A layer constructed with all defaults. -/
def defaultLayer : RedisCachePersistenceLayer := {}

namespace Redis

/-- `RedisCachePersistenceLayer._item_to_data_record`: build a `DataRecord`
from a hash.  `item[self.status_attr]` raises `KeyError` when the status
attribute is absent; `in_progress_expiry_timestamp` is `item.get(...)`
converted with `int` when it is a string; `response_data` and `payload_hash`
are `str(item.get(...))`. -/
def item_to_data_record (L : RedisCachePersistenceLayer) (idempotency_key : String)
    (item : RedisHash) : Except PyExc DataRecord :=
  match pyIndex item L.status_attr with
  | .error e => .error e
  | .ok st =>
    .ok { idempotency_key := idempotency_key
          status := statusString st
          in_progress_expiry_timestamp := (hget item L.in_progress_expiry_attr).map intOfRVal
          response_data := pyStr (hget item L.data_attr)
          payload_hash := pyStr (hget item L.validation_key_attr) }

/-- `RedisCachePersistenceLayer._get_record`: `response = hgetall(key)`.
The `try: item = response / except KeyError: raise ItemNotFoundError` in the
source is dead code — a plain assignment never raises — so a missing key flows
on as the empty hash into `_item_to_data_record`. -/
def get_record (L : RedisCachePersistenceLayer) (store : RedisStore)
    (idempotency_key : String) : Except PyExc DataRecord :=
  let response := hgetall store idempotency_key
  let item := response
  item_to_data_record L idempotency_key item

/-- The `hset` mapping `_put_record` builds: always the status, the
in-progress expiry when the record has one, and the payload hash when
validation is enabled. -/
def put_mapping (L : RedisCachePersistenceLayer) (rec : DataRecord) : RedisHash :=
  [(L.status_attr, RVal.vstr rec.status)]
    ++ (match rec.in_progress_expiry_timestamp with
        | some t => [(L.in_progress_expiry_attr, RVal.vint t)]
        | none => [])
    ++ (if L.payload_validation_enabled then [(L.validation_key_attr, RVal.vstr rec.payload_hash)]
        else [])

/-- The existence/liveness check of `_put_record`, applied to the snapshot the
preceding `hgetall` returned: raise `ItemAlreadyExistsError` when a record
exists and its status is COMPLETED, or when it carries an in-progress expiry
attribute that is still in the future. -/
def put_check (L : RedisCachePersistenceLayer) (idempotency_record : RedisHash)
    (now_ms : Int) : Except PyExc Unit :=
  if idempotency_record.length > 0 then
    match pyIndex idempotency_record L.status_attr with
    | .error e => .error e
    | .ok st =>
      if st = RVal.vstr (STATUS_CONSTANTS "COMPLETED") then .error .itemAlreadyExistsError
      else
        match hget idempotency_record L.in_progress_expiry_attr with
        | some v => if intOfRVal v > now_ms then .error .itemAlreadyExistsError else .ok ()
        | none => .ok ()
  else .ok ()

/-- The write half of `_put_record`: `hset` of the mapping under the record's
key.  The trailing `expire` call (backend TTL garbage collection) is not
modelled; no claim concerns physical TTL deletion. -/
def put_write (L : RedisCachePersistenceLayer) (store : RedisStore)
    (rec : DataRecord) : RedisStore :=
  storeHset store rec.idempotency_key (put_mapping L rec)

/-- `RedisCachePersistenceLayer._put_record`: read the current hash with
`hgetall`, run the liveness check on that snapshot, then write with `hset`.
The trailing `except` blocks of the source re-raise unchanged. -/
def put_record (L : RedisCachePersistenceLayer) (store : RedisStore)
    (rec : DataRecord) (now_ms : Int) : Except PyExc RedisStore :=
  match put_check L (hgetall store rec.idempotency_key) now_ms with
  | .error e => .error e
  | .ok _ => .ok (put_write L store rec)

/-- The `hset` mapping `_update_record` builds: response data and status. -/
def update_mapping (L : RedisCachePersistenceLayer) (rec : DataRecord) : RedisHash :=
  [(L.data_attr, RVal.vstr rec.response_data), (L.status_attr, RVal.vstr rec.status)]

/-- `RedisCachePersistenceLayer._update_record`: `hset` of data and status. -/
def update_record (L : RedisCachePersistenceLayer) (store : RedisStore)
    (rec : DataRecord) : RedisStore :=
  storeHset store rec.idempotency_key (update_mapping L rec)

/-- `RedisCachePersistenceLayer._delete_record`: `DEL` of the record's key. -/
def delete_record (store : RedisStore) (rec : DataRecord) : RedisStore :=
  storeDelete store rec.idempotency_key

end Redis

/-! ## Interleaving model for concurrent `_put_record` calls

`_put_record` is a non-atomic read (`hgetall`) followed by a check on the
snapshot and a write (`hset`).  Two concurrent calls on the same key are
modelled as two processes, each advancing in two atomic phases (the read, then
the check-and-write), scheduled by an explicit interleaving. -/

/-- Where one `_put_record` execution stands: not started, holding its
`hgetall` snapshot, or finished with its outcome. -/
inductive ProcState
  | ready
  | readDone (snap : RedisHash)
  | finished (res : Except PyExc Unit)

/-- One atomic step of a `_put_record` execution against the shared store:
first the `hgetall` read, then the snapshot check followed (on success) by
the `hset` write. -/
def procStep (L : RedisCachePersistenceLayer) (rec : DataRecord) (now_ms : Int) :
    ProcState → RedisStore → ProcState × RedisStore
  | .ready, store => (.readDone (hgetall store rec.idempotency_key), store)
  | .readDone snap, store =>
    match Redis.put_check L snap now_ms with
    | .error e => (.finished (.error e), store)
    | .ok _ => (.finished (.ok ()), Redis.put_write L store rec)
  | .finished r, store => (.finished r, store)

/-- The joint state of two `_put_record` executions over one shared store. -/
structure ConcState where
  procA : ProcState
  procB : ProcState
  store : RedisStore

/-- Advance the scheduled process by one atomic step. -/
def schedStep (L : RedisCachePersistenceLayer) (recA recB : DataRecord) (now_ms : Int)
    (turnA : Bool) (s : ConcState) : ConcState :=
  if turnA then
    let next := procStep L recA now_ms s.procA s.store
    { s with procA := next.1, store := next.2 }
  else
    let next := procStep L recB now_ms s.procB s.store
    { s with procB := next.1, store := next.2 }

/-- Run two concurrent `_put_record` executions under an explicit schedule
(`true` = process A's turn, `false` = process B's turn). -/
def runSched (L : RedisCachePersistenceLayer) (recA recB : DataRecord) (now_ms : Int)
    (sched : List Bool) (store0 : RedisStore) : ConcState :=
  sched.foldl (fun s turn => schedStep L recA recB now_ms turn s)
    { procA := .ready, procB := .ready, store := store0 }

/-- The claim's notion of a live blocking record, over the stored hash:
status COMPLETED, or status INPROGRESS with an in-progress expiry that has
not yet passed. -/
def liveRecord (h : RedisHash) (now_ms : Int) : Prop :=
  hget h "status" = some (.vstr (STATUS_CONSTANTS "COMPLETED")) ∨
    (hget h "status" = some (.vstr (STATUS_CONSTANTS "INPROGRESS")) ∧
      ∃ v, hget h "in_progress_expiration" = some v ∧ intOfRVal v > now_ms)

/-! ## The orchestrator: `IdempotencyHandler` and the `idempotent` wrapper

`idempotency.py` works against the abstract `BasePersistenceLayer`; the
observable behaviour of one `handle()` call is a function of the outcomes of
the persistence calls and of the wrapped function, so those outcomes are the
handler model's input. -/

/-- The outcome of the `save_inprogress` call `handle` issues first:
success, `IdempotencyKeyError`, `IdempotencyItemAlreadyExistsError`, or any
other exception (carrying its identity). -/
inductive SaveInprogressOutcome
  | ok
  | keyError
  | itemAlreadyExists
  | otherExc (cause : String)
deriving DecidableEq

/-- The outcome of the `get_record` call of `_get_idempotency_record`:
a record, `IdempotencyItemNotFoundError`, `IdempotencyValidationError`, or
any other exception (carrying its identity). -/
inductive GetRecordOutcome
  | found (record : DataRecord)
  | itemNotFound
  | validationError
  | otherExc (cause : String)
deriving DecidableEq

/-- The outcome of the wrapped lambda handler: a return value or an
exception identified by a string. -/
inductive LambdaOutcome (α : Type)
  | returns (v : α)
  | raises (exc : String)
deriving DecidableEq

/-- The outcome of a `delete_record` or `save_success` call: success or an
exception identified by a string. -/
inductive PersistOp
  | ok
  | fails (cause : String)
deriving DecidableEq

/-- One invocation, described by its event and the outcomes each external
call would have if made. -/
structure Invocation (α : Type) where
  event : String
  save : SaveInprogressOutcome
  get : GetRecordOutcome
  run : LambdaOutcome α
  deleteOp : PersistOp
  saveSuccessOp : PersistOp
deriving DecidableEq

/-- The exception `handle()` lets escape to the `idempotent` wrapper.
`persistenceLayerError` carries its message and its `from` cause;
`lambdaError` is the wrapped function's own exception re-raised. -/
inductive HandlerExc
  | idempotencyKeyError
  | persistenceLayerError (msg : String) (cause : String)
  | inconsistentStateError
  | alreadyInProgressError
  | validationError
  | lambdaError (exc : String)
deriving DecidableEq

/-- What one `handle()` call produces: a fresh execution's return value, the
cached response of a COMPLETED record, or a raised exception. -/
inductive HandleResult (α : Type)
  | value (v : α)
  | cached (d : JsonDict)
  | raised (e : HandlerExc)
deriving DecidableEq

/-- The arguments of a `save_inprogress` call, per the spec's persistence
contract `save_in_progress(payload, remaining_time_ms)`. -/
structure SaveInprogressArgs where
  data : String
  remaining_time_ms : Option Int
deriving DecidableEq

/-- The `save_inprogress` call `IdempotencyHandler.handle` issues:
`self.persistence_store.save_inprogress(data=self.event)` — only the event is
passed, no remaining time. -/
def handleSaveInprogressArgs (event : String) : SaveInprogressArgs :=
  { data := event, remaining_time_ms := none }

/-- Everything observable about one `handle()` call: its result, whether the
wrapped handler ran, whether `delete_record` was called, and the argument
list of the `save_inprogress` call it issued. -/
structure HandleOut (α : Type) where
  result : HandleResult α
  handlerCalled : Bool
  deleteCalled : Bool
  saveCall : SaveInprogressArgs

/-- `IdempotencyHandler._get_idempotency_record`: `ItemNotFoundError` becomes
`InconsistentStateError`, `ValidationError` bubbles up unchanged, any other
exception is wrapped as `PersistenceLayerError`. -/
def get_idempotency_record (g : GetRecordOutcome) : Except HandlerExc DataRecord :=
  match g with
  | .found r => .ok r
  | .itemNotFound => .error .inconsistentStateError
  | .validationError => .error .validationError
  | .otherExc c => .error (.persistenceLayerError "Failed to get record from idempotency store" c)

/-- `IdempotencyHandler._handle_for_status`: EXPIRED raises
`InconsistentStateError`, INPROGRESS raises `AlreadyInProgressError`, and
otherwise the stored response is returned deserialized. -/
def handle_for_status (r : DataRecord) : Except HandlerExc JsonDict :=
  if r.status = STATUS_CONSTANTS "EXPIRED" then .error .inconsistentStateError
  else if r.status = STATUS_CONSTANTS "INPROGRESS" then .error .alreadyInProgressError
  else .ok r.response_json_as_dict

/-- `IdempotencyHandler._call_lambda_handler`: run the wrapped handler; on
exception call `delete_record` and re-raise the original (or wrap a failing
delete as `PersistenceLayerError`); on success call `save_success` (wrapping
a failure as `PersistenceLayerError`).  Returns the result paired with
whether `delete_record` was called. -/
def call_lambda_handler {α : Type} (inv : Invocation α) : HandleResult α × Bool :=
  match inv.run with
  | .raises e =>
    match inv.deleteOp with
    | .ok => (.raised (.lambdaError e), true)
    | .fails d =>
      (.raised (.persistenceLayerError "Failed to delete record from idempotency store" d), true)
  | .returns v =>
    match inv.saveSuccessOp with
    | .ok => (.value v, false)
    | .fails s =>
      (.raised (.persistenceLayerError "Failed to update record state to success in idempotency store" s),
        false)

/-- The dispatch of `IdempotencyHandler.handle` on the `save_inprogress`
outcome: success executes the wrapped handler; `IdempotencyKeyError`
re-raises unchanged; `ItemAlreadyExistsError` reconciles via
`_get_idempotency_record` and `_handle_for_status`; anything else is wrapped
as `PersistenceLayerError`.  Returns (result, handlerCalled, deleteCalled). -/
def handleCore {α : Type} (inv : Invocation α) : HandleResult α × Bool × Bool :=
  match inv.save with
  | .ok =>
    let run := call_lambda_handler inv
    (run.1, true, run.2)
  | .keyError => (.raised .idempotencyKeyError, false, false)
  | .itemAlreadyExists =>
    match get_idempotency_record inv.get with
    | .error e => (.raised e, false, false)
    | .ok r =>
      match handle_for_status r with
      | .error e => (.raised e, false, false)
      | .ok d => (.cached d, false, false)
  | .otherExc c =>
    (.raised (.persistenceLayerError "Failed to save in progress record to idempotency store" c),
      false, false)

/-- `IdempotencyHandler.handle`: the `save_inprogress` call (with the
argument list of the source call site) followed by the dispatch on its
outcome. -/
def handle {α : Type} (inv : Invocation α) : HandleOut α :=
  { result := (handleCore inv).1
    handlerCalled := (handleCore inv).2.1
    deleteCalled := (handleCore inv).2.2
    saveCall := handleSaveInprogressArgs inv.event }

/-- `max_handler_retries` of the `idempotent` wrapper. -/
def max_handler_retries : Nat := 2

/-- The retry loop body of `idempotent`: walk the attempt indices; an
`InconsistentStateError` on the last attempt is re-raised, on earlier
attempts the loop continues; every other outcome is returned immediately.
`none` is Python's implicit `None` after the loop (unreachable for the
actual index list). -/
def runWithRetries {α : Type} (f : Nat → Invocation α) : List Nat → Option (HandleResult α)
  | [] => none
  | i :: rest =>
    match (handle (f i)).result with
    | .raised .inconsistentStateError =>
      if i = max_handler_retries then some (.raised .inconsistentStateError)
      else runWithRetries f rest
    | r => some r

/-- The `idempotent` wrapper: `for i in range(max_handler_retries + 1)`
around `handle()`, with attempt `i` described by `f i`. -/
def idempotent {α : Type} (f : Nat → Invocation α) : Option (HandleResult α) :=
  runWithRetries f (List.range (max_handler_retries + 1))

/-! ## Theorems -/

/-- C1: when `save_inprogress` fails with `ItemAlreadyExists`, `handle()`
fetches the existing record and dispatches exactly by its status: a COMPLETED
record makes it return the stored `response_data` deserialized without
invoking the wrapped function; an INPROGRESS record raises
`AlreadyInProgressError`; an EXPIRED record, or `ItemNotFound` on the fetch,
raises `InconsistentStateError`. -/
theorem C1_conflict_dispatch {α : Type} (inv : Invocation α)
    (hsave : inv.save = .itemAlreadyExists) :
    (∀ r : DataRecord, inv.get = .found r →
      (r.status = STATUS_CONSTANTS "COMPLETED" →
        (handle inv).result = .cached r.response_json_as_dict ∧
          (handle inv).handlerCalled = false) ∧
      (r.status = STATUS_CONSTANTS "INPROGRESS" →
        (handle inv).result = .raised .alreadyInProgressError ∧
          (handle inv).handlerCalled = false) ∧
      (r.status = STATUS_CONSTANTS "EXPIRED" →
        (handle inv).result = .raised .inconsistentStateError ∧
          (handle inv).handlerCalled = false)) ∧
    (inv.get = .itemNotFound →
      (handle inv).result = .raised .inconsistentStateError ∧
        (handle inv).handlerCalled = false) := by
  refine ⟨fun r hg => ⟨fun hst => ?_, fun hst => ?_, fun hst => ?_⟩, fun hg => ?_⟩
  · simp [handle, handleCore, hsave, hg, get_idempotency_record, handle_for_status, hst,
      STATUS_CONSTANTS]
  · simp [handle, handleCore, hsave, hg, get_idempotency_record, handle_for_status, hst,
      STATUS_CONSTANTS]
  · simp [handle, handleCore, hsave, hg, get_idempotency_record, handle_for_status, hst,
      STATUS_CONSTANTS]
  · simp [handle, handleCore, hsave, hg, get_idempotency_record]

/-- Witness for C1 at a concrete invocation holding a COMPLETED record. -/
theorem C1_conflict_dispatch_witness :
    (handle { event := "e", save := .itemAlreadyExists,
              get := .found { idempotency_key := "k", status := "COMPLETED",
                              response_data := "res" },
              run := .returns (0 : Nat), deleteOp := .ok, saveSuccessOp := .ok }).result
      = .cached ⟨"res"⟩ :=
  (((C1_conflict_dispatch
      { event := "e", save := .itemAlreadyExists,
        get := .found { idempotency_key := "k", status := "COMPLETED",
                        response_data := "res" },
        run := .returns (0 : Nat), deleteOp := .ok, saveSuccessOp := .ok } rfl).1
      { idempotency_key := "k", status := "COMPLETED", response_data := "res" } rfl).1 rfl).1

/-- C5: the `idempotent` wrapper retries `handle()` only on
`InconsistentStateError`, at most 2 extra times (3 attempts total); on the
third failing attempt the `InconsistentStateError` is re-raised, every other
outcome is returned or propagated immediately, and the wrapper consults no
attempt beyond the third. -/
theorem C5_retry_policy {α : Type} (f : Nat → Invocation α) :
    ((handle (f 0)).result = .raised .inconsistentStateError →
     (handle (f 1)).result = .raised .inconsistentStateError →
     (handle (f 2)).result = .raised .inconsistentStateError →
      idempotent f = some (.raised .inconsistentStateError)) ∧
    (∀ e : HandlerExc, e ≠ .inconsistentStateError → (handle (f 0)).result = .raised e →
      idempotent f = some (.raised e)) ∧
    (∀ r : HandleResult α, (handle (f 0)).result = .raised .inconsistentStateError →
      (handle (f 1)).result = r → r ≠ .raised .inconsistentStateError →
      idempotent f = some r) ∧
    (∀ g : Nat → Invocation α, f 0 = g 0 → f 1 = g 1 → f 2 = g 2 →
      idempotent f = idempotent g) := by
  have hrange : List.range (max_handler_retries + 1) = [0, 1, 2] := rfl
  refine ⟨fun h0 h1 h2 => ?_, fun e he h0 => ?_, fun r h0 h1 hr => ?_,
    fun g g0 g1 g2 => ?_⟩
  · simp [idempotent, hrange, runWithRetries, h0, h1, h2, max_handler_retries]
  · cases e <;> simp_all [idempotent, hrange, runWithRetries, max_handler_retries]
  · cases r with
    | raised e => cases e <;> simp_all [idempotent, hrange, runWithRetries, max_handler_retries]
    | _ => simp_all [idempotent, hrange, runWithRetries, max_handler_retries]
  · simp [idempotent, hrange, runWithRetries, g0, g1, g2]

/-- Witness for C5: an invocation whose `save_inprogress` conflicts and whose
fetch finds nothing makes every attempt raise `InconsistentStateError`, and
the wrapper returns that error after the three attempts. -/
theorem C5_retry_policy_witness :
    idempotent (fun _ => ({ event := "e", save := .itemAlreadyExists, get := .itemNotFound,
                            run := .returns (0 : Nat), deleteOp := .ok,
                            saveSuccessOp := .ok } : Invocation Nat))
      = some (.raised .inconsistentStateError) :=
  (C5_retry_policy _).1 rfl rfl rfl

/-- C6: when the wrapped function raises, `handle()` calls `delete_record`
and re-raises the original exception unchanged; if `delete_record` itself
raises, a `PersistenceLayerError` carrying the delete failure as cause is
raised instead. -/
theorem C6_handler_exception_path {α : Type} (inv : Invocation α) (e : String)
    (hsave : inv.save = .ok) (hrun : inv.run = .raises e) :
    (handle inv).deleteCalled = true ∧
    (inv.deleteOp = .ok → (handle inv).result = .raised (.lambdaError e)) ∧
    (∀ d, inv.deleteOp = .fails d →
      (handle inv).result =
        .raised (.persistenceLayerError "Failed to delete record from idempotency store" d)) := by
  refine ⟨?_, fun hdel => ?_, fun d hdel => ?_⟩
  · cases hd : inv.deleteOp <;>
      simp [handle, handleCore, call_lambda_handler, hsave, hrun, hd]
  · simp [handle, handleCore, call_lambda_handler, hsave, hrun, hdel]
  · simp [handle, handleCore, call_lambda_handler, hsave, hrun, hdel]

/-- Witness for C6 at a concrete invocation whose handler raises "boom" and
whose delete succeeds. -/
theorem C6_handler_exception_path_witness :
    (handle { event := "e", save := .ok, get := .itemNotFound,
              run := .raises "boom", deleteOp := .ok,
              saveSuccessOp := .ok : Invocation Nat }).result
      = .raised (.lambdaError "boom") :=
  ((C6_handler_exception_path _ "boom" rfl rfl).2.1) rfl

/-- C10: an `IdempotencyKeyError` from `save_inprogress` is re-raised by
`handle()` unchanged, and it is the only exception besides
`ItemAlreadyExists` that escapes the wrapping into
`IdempotencyPersistenceLayerError`: every other exception is wrapped. -/
theorem C10_key_error_passthrough {α : Type} (inv : Invocation α) :
    (inv.save = .keyError →
      (handle inv).result = .raised .idempotencyKeyError ∧
        (handle inv).handlerCalled = false) ∧
    (∀ c, inv.save = .otherExc c →
      (handle inv).result =
        .raised (.persistenceLayerError "Failed to save in progress record to idempotency store" c)) := by
  refine ⟨fun hs => ?_, fun c hs => ?_⟩ <;> simp [handle, handleCore, hs]

/-- Witness for C10 at a concrete invocation whose `save_inprogress` raises
`IdempotencyKeyError`. -/
theorem C10_key_error_passthrough_witness :
    (handle { event := "e", save := .keyError, get := .itemNotFound,
              run := .returns (0 : Nat), deleteOp := .ok,
              saveSuccessOp := .ok }).result = .raised .idempotencyKeyError :=
  ((C10_key_error_passthrough _).1 rfl).1

/-- C8 counterexample: the claim says `handle` passes a remaining-time budget
to `save_inprogress`; at this concrete invocation the issued call carries no
`remaining_time_ms` at all (`save_inprogress(data=self.event)`). -/
theorem C8_counterexample :
    (handle { event := "order-event", save := .ok, get := .itemNotFound,
              run := .returns (0 : Nat), deleteOp := .ok,
              saveSuccessOp := .ok }).saveCall.remaining_time_ms = none := rfl

/-- C8 amended: `handle()` issues its `save_inprogress` call with only the
event as argument; no remaining execution budget is computed from the Lambda
context or passed, so the in-progress lease is not derived from it. -/
theorem C8_amended_save_call_args {α : Type} (inv : Invocation α) :
    (handle inv).saveCall = { data := inv.event, remaining_time_ms := none } := rfl

/-- A hash with a bound attribute is nonempty. -/
theorem length_pos_of_hget_some {h : RedisHash} {k : String} {v : RVal}
    (hh : hget h k = some v) : 0 < h.length := by
  cases h with
  | nil => simp [hget] at hh
  | cons a t => simp

/-- `HSET` followed by a lookup of the same key finds the merged hash. -/
theorem storeLookup_storeHset_self (store : RedisStore) (key : String) (m : RedisHash) :
    storeLookup (storeHset store key m) key = some (hashMerge (hgetall store key) m) := by
  induction store with
  | nil => simp [storeHset, storeLookup, hgetall]
  | cons p rest ih =>
    obtain ⟨k0, h0⟩ := p
    by_cases hk : k0 = key
    · subst hk; simp [storeHset, storeLookup, hgetall]
    · simp [storeHset, storeLookup, hk, hgetall] at ih ⊢
      exact ih

/-- The liveness check of `_put_record`, characterized over a snapshot whose
status is COMPLETED or INPROGRESS: it raises `ItemAlreadyExistsError` exactly
on a live record, and succeeds otherwise. -/
theorem put_check_spec (h : RedisHash) (now_ms : Int) (st : String)
    (hst : hget h "status" = some (.vstr st))
    (hcases : st = "COMPLETED" ∨ st = "INPROGRESS") :
    (Redis.put_check defaultLayer h now_ms = .error .itemAlreadyExistsError ↔
      liveRecord h now_ms) ∧
    (¬ liveRecord h now_ms → Redis.put_check defaultLayer h now_ms = .ok ()) := by
  have hlen : 0 < h.length := length_pos_of_hget_some hst
  rcases hcases with hc | hc
  · subst hc
    have hrun : Redis.put_check defaultLayer h now_ms = .error .itemAlreadyExistsError := by
      simp [Redis.put_check, defaultLayer, pyIndex, hst, STATUS_CONSTANTS, hlen]
    have hl : liveRecord h now_ms := Or.inl hst
    exact ⟨by simp [hrun, hl], fun hn => absurd hl hn⟩
  · subst hc
    cases hip : hget h "in_progress_expiration" with
    | none =>
      have hrun : Redis.put_check defaultLayer h now_ms = .ok () := by
        simp [Redis.put_check, defaultLayer, pyIndex, hst, STATUS_CONSTANTS, hlen, hip]
      have hnl : ¬ liveRecord h now_ms := by
        simp [liveRecord, hst, STATUS_CONSTANTS, hip]
      refine ⟨?_, fun _ => hrun⟩
      rw [hrun]
      exact iff_of_false (by simp) hnl
    | some v =>
      by_cases hgt : intOfRVal v > now_ms
      · have hrun : Redis.put_check defaultLayer h now_ms = .error .itemAlreadyExistsError := by
          simp [Redis.put_check, defaultLayer, pyIndex, hst, STATUS_CONSTANTS, hlen, hip, hgt]
        have hl : liveRecord h now_ms := Or.inr ⟨hst, v, hip, hgt⟩
        exact ⟨by simp [hrun, hl], fun hn => absurd hl hn⟩
      · have hrun : Redis.put_check defaultLayer h now_ms = .ok () := by
          simp [Redis.put_check, defaultLayer, pyIndex, hst, STATUS_CONSTANTS, hlen, hip, hgt]
        have hnl : ¬ liveRecord h now_ms := by
          simp [liveRecord, hst, STATUS_CONSTANTS, hip]
          exact le_of_not_lt hgt
        refine ⟨?_, fun _ => hrun⟩
        rw [hrun]
        exact iff_of_false (by simp) hnl

/-- C3: for an existing stored record (status COMPLETED or INPROGRESS),
`_put_record` raises `ItemAlreadyExistsError` if and only if the record is
live — COMPLETED, or INPROGRESS with an in-progress expiry still in the
future — and otherwise the write succeeds, overwriting the record's
attributes via `hset`. -/
theorem C3_put_record_blocks_iff_live (store : RedisStore) (rec : DataRecord)
    (now_ms : Int) (st : String)
    (hst : hget (hgetall store rec.idempotency_key) "status" = some (.vstr st))
    (hcases : st = STATUS_CONSTANTS "COMPLETED" ∨ st = STATUS_CONSTANTS "INPROGRESS") :
    (Redis.put_record defaultLayer store rec now_ms = .error .itemAlreadyExistsError ↔
      liveRecord (hgetall store rec.idempotency_key) now_ms) ∧
    (¬ liveRecord (hgetall store rec.idempotency_key) now_ms →
      Redis.put_record defaultLayer store rec now_ms =
        .ok (Redis.put_write defaultLayer store rec)) := by
  have hs := put_check_spec (hgetall store rec.idempotency_key) now_ms st hst hcases
  cases hpc : Redis.put_check defaultLayer (hgetall store rec.idempotency_key) now_ms with
  | error e =>
    have hput : Redis.put_record defaultLayer store rec now_ms = .error e := by
      simp [Redis.put_record, hpc]
    have hlive : liveRecord (hgetall store rec.idempotency_key) now_ms := by
      by_contra hn
      rw [hs.2 hn] at hpc
      simp at hpc
    have he : e = PyExc.itemAlreadyExistsError := by
      have hitem := hs.1.mpr hlive
      rw [hpc] at hitem
      injection hitem
    refine ⟨?_, fun hn => absurd hlive hn⟩
    rw [hput, he]
    exact iff_of_true rfl hlive
  | ok u =>
    have hput : Redis.put_record defaultLayer store rec now_ms =
        .ok (Redis.put_write defaultLayer store rec) := by
      simp [Redis.put_record, hpc]
    have hnl : ¬ liveRecord (hgetall store rec.idempotency_key) now_ms := by
      intro hl
      have hitem := hs.1.mpr hl
      rw [hpc] at hitem
      simp at hitem
    refine ⟨?_, fun _ => hput⟩
    rw [hput]
    exact iff_of_false (by simp) hnl

/-- Witness for C3: a stored COMPLETED record blocks the write. -/
theorem C3_put_record_blocks_iff_live_witness :
    Redis.put_record defaultLayer [("k", [("status", RVal.vstr "COMPLETED")])]
      { idempotency_key := "k", status := "INPROGRESS",
        in_progress_expiry_timestamp := some 99 } 0 = .error .itemAlreadyExistsError :=
  (C3_put_record_blocks_iff_live [("k", [("status", RVal.vstr "COMPLETED")])]
    { idempotency_key := "k", status := "INPROGRESS",
      in_progress_expiry_timestamp := some 99 } 0 "COMPLETED" rfl (Or.inl rfl)).1.mpr
    (Or.inl rfl)

/-- C7: an existing INPROGRESS record whose stored in-progress expiry is
strictly in the past does not block a new `_put_record` on the same key: the
write succeeds, reclaiming the lease. -/
theorem C7_expired_lease_reclaimed (store : RedisStore) (rec : DataRecord)
    (now_ms t : Int)
    (hst : hget (hgetall store rec.idempotency_key) "status" =
      some (.vstr (STATUS_CONSTANTS "INPROGRESS")))
    (hip : hget (hgetall store rec.idempotency_key) "in_progress_expiration" =
      some (.vint t))
    (hpast : t < now_ms) :
    Redis.put_record defaultLayer store rec now_ms =
      .ok (Redis.put_write defaultLayer store rec) := by
  have hs := put_check_spec (hgetall store rec.idempotency_key) now_ms "INPROGRESS" hst
    (Or.inr rfl)
  have hnl : ¬ liveRecord (hgetall store rec.idempotency_key) now_ms := by
    intro hl
    rcases hl with hl | ⟨_, v, hv, hgt⟩
    · rw [hst] at hl
      simp [STATUS_CONSTANTS] at hl
    · rw [hip] at hv
      injection hv with hv
      rw [← hv] at hgt
      simp [intOfRVal] at hgt
      omega
  have hck := hs.2 hnl
  simp [Redis.put_record, hck]

/-- Witness for C7: a lease that expired at 10 is reclaimed at time 100. -/
theorem C7_expired_lease_reclaimed_witness :
    Redis.put_record defaultLayer
      [("k", [("status", RVal.vstr "INPROGRESS"), ("in_progress_expiration", RVal.vint 10)])]
      { idempotency_key := "k", status := "INPROGRESS",
        in_progress_expiry_timestamp := some 200 } 100 =
      .ok (Redis.put_write defaultLayer
        [("k", [("status", RVal.vstr "INPROGRESS"), ("in_progress_expiration", RVal.vint 10)])]
        { idempotency_key := "k", status := "INPROGRESS",
          in_progress_expiry_timestamp := some 200 }) :=
  C7_expired_lease_reclaimed
    [("k", [("status", RVal.vstr "INPROGRESS"), ("in_progress_expiration", RVal.vint 10)])]
    { idempotency_key := "k", status := "INPROGRESS",
      in_progress_expiry_timestamp := some 200 } 100 10 rfl rfl (by decide)

/-- C4: for a key with no stored record, `_get_record` raises Python's
`KeyError` — not `ItemNotFoundError`.  `hgetall` returns the empty hash for a
missing key, the `except KeyError` around the plain assignment
`item = response` is dead code, and `item[self.status_attr]` inside
`_item_to_data_record` then raises `KeyError`. -/
theorem C4_missing_key_raises_key_error (store : RedisStore) (key : String)
    (habsent : storeLookup store key = none) :
    Redis.get_record defaultLayer store key = .error .keyError ∧
      PyExc.keyError ≠ PyExc.itemNotFoundError := by
  refine ⟨?_, by decide⟩
  simp [Redis.get_record, Redis.item_to_data_record, hgetall, habsent, pyIndex, hget,
    defaultLayer]

/-- Witness for C4: the empty store. -/
theorem C4_missing_key_raises_key_error_witness :
    Redis.get_record defaultLayer [] "k" = .error .keyError :=
  (C4_missing_key_raises_key_error [] "k" rfl).1

/-- C9 counterexample: reading back a stored INPROGRESS record (which carries
no data attribute) yields a `DataRecord` whose `response_data` is the
non-empty string "None" — `str(item.get(self.data_attr))` of a missing
attribute — so "response_data is set if and only if status is COMPLETED"
fails on read-back. -/
theorem C9_counterexample :
    ¬ ∀ r : DataRecord,
        Redis.item_to_data_record defaultLayer "k"
          [("status", RVal.vstr (STATUS_CONSTANTS "INPROGRESS")),
           ("in_progress_expiration", RVal.vint 123)] = .ok r →
        (r.response_data ≠ "" ↔ r.status = STATUS_CONSTANTS "COMPLETED") := by
  intro hall
  have h := hall
    { idempotency_key := "k", status := "INPROGRESS",
      in_progress_expiry_timestamp := some 123,
      response_data := "None", payload_hash := "None" } rfl
  exact absurd (h.mp (by decide)) (by decide)

/-- C9 amended: on the write side the invariant holds — `_put_record` (used
for save-in-progress) writes no data attribute and `_update_record` (the
COMPLETED transition) writes `response_data` together with the status — but
on read-back a record without a data attribute gets `response_data` equal to
the literal string "None" (Python `str(None)`) rather than an absent or empty
value, while a present data attribute is returned unchanged. -/
theorem C9_amended_response_data (rec : DataRecord) (key : String) (item : RedisHash) :
    hget (Redis.put_mapping defaultLayer rec) "data" = none ∧
    hget (Redis.update_mapping defaultLayer rec) "data" = some (.vstr rec.response_data) ∧
    hget (Redis.update_mapping defaultLayer rec) "status" = some (.vstr rec.status) ∧
    (∀ r : DataRecord, hget item "data" = none →
      Redis.item_to_data_record defaultLayer key item = .ok r →
      r.response_data = "None") ∧
    (∀ (s : String) (r : DataRecord), hget item "data" = some (.vstr s) →
      Redis.item_to_data_record defaultLayer key item = .ok r →
      r.response_data = s) := by
  refine ⟨?_, ?_, ?_, fun r hnone hok => ?_, fun s r hsome hok => ?_⟩
  · cases hip : rec.in_progress_expiry_timestamp with
    | none =>
      simp [Redis.put_mapping, defaultLayer, hget, hip]
      decide
    | some t =>
      simp [Redis.put_mapping, defaultLayer, hget, hip]
      rw [if_neg (by decide), if_neg (by decide)]
  · simp [Redis.update_mapping, defaultLayer, hget]
  · simp [Redis.update_mapping, defaultLayer, hget]
    exact fun hcon => absurd hcon (by decide)
  · cases hpy : pyIndex item "status" with
    | error e => simp [Redis.item_to_data_record, defaultLayer, hpy] at hok
    | ok st =>
      simp [Redis.item_to_data_record, defaultLayer, hpy] at hok
      rw [← hok]
      simp [pyStr, hnone]
  · cases hpy : pyIndex item "status" with
    | error e => simp [Redis.item_to_data_record, defaultLayer, hpy] at hok
    | ok st =>
      simp [Redis.item_to_data_record, defaultLayer, hpy] at hok
      rw [← hok]
      simp [pyStr, hsome]

/-- Witness for C9 amended: a concrete in-progress record's write mapping
carries no data attribute, and the read-back of a hash without one yields the
"None" marker. -/
theorem C9_amended_response_data_witness :
    hget (Redis.put_mapping defaultLayer
      { idempotency_key := "k", status := "INPROGRESS",
        in_progress_expiry_timestamp := some 123 }) "data" = none ∧
    DataRecord.response_data
      { idempotency_key := "k", status := "INPROGRESS",
        in_progress_expiry_timestamp := some 123,
        response_data := "None", payload_hash := "None" } = "None" :=
  ⟨(C9_amended_response_data
      { idempotency_key := "k", status := "INPROGRESS",
        in_progress_expiry_timestamp := some 123 } "k"
      [("status", RVal.vstr "INPROGRESS"), ("in_progress_expiration", RVal.vint 123)]).1,
    (C9_amended_response_data
      { idempotency_key := "k", status := "INPROGRESS",
        in_progress_expiry_timestamp := some 123 } "k"
      [("status", RVal.vstr "INPROGRESS"), ("in_progress_expiration", RVal.vint 123)]).2.2.2.1
      { idempotency_key := "k", status := "INPROGRESS",
        in_progress_expiry_timestamp := some 123,
        response_data := "None", payload_hash := "None" } rfl rfl⟩

/-- C2 counterexample: the Redis `_put_record` is a non-atomic read-then-write;
under the interleaving read-A, read-B, write-A, write-B from an empty store,
both concurrent save-in-progress calls on the same key observe success. -/
theorem C2_counterexample :
    (runSched defaultLayer
        { idempotency_key := "k", status := "INPROGRESS",
          in_progress_expiry_timestamp := some 5000 }
        { idempotency_key := "k", status := "INPROGRESS",
          in_progress_expiry_timestamp := some 6000 }
        1000 [true, false, true, false] []).procA = .finished (.ok ()) ∧
    (runSched defaultLayer
        { idempotency_key := "k", status := "INPROGRESS",
          in_progress_expiry_timestamp := some 5000 }
        { idempotency_key := "k", status := "INPROGRESS",
          in_progress_expiry_timestamp := some 6000 }
        1000 [true, false, true, false] []).procB = .finished (.ok ()) :=
  ⟨rfl, rfl⟩

/-- C2 amended: mutual exclusion holds only for serialized calls.  When one
`_put_record` completes its read-check-write before the other begins (the
schedule A, A, B, B), and the first call installs a live INPROGRESS lease,
the first call succeeds and the second raises `ItemAlreadyExistsError`; the
interleaved schedule of the counterexample can make both succeed, because
the check-then-write is not atomic. -/
theorem C2_amended_serialized_exclusion (store0 : RedisStore) (recA recB : DataRecord)
    (now_ms tA : Int)
    (hkey : recB.idempotency_key = recA.idempotency_key)
    (habsent : hgetall store0 recA.idempotency_key = [])
    (hstA : recA.status = STATUS_CONSTANTS "INPROGRESS")
    (hipA : recA.in_progress_expiry_timestamp = some tA)
    (hfuture : now_ms < tA) :
    (runSched defaultLayer recA recB now_ms [true, true, false, false] store0).procA =
      .finished (.ok ()) ∧
    (runSched defaultLayer recA recB now_ms [true, true, false, false] store0).procB =
      .finished (.error .itemAlreadyExistsError) := by
  have hstat : defaultLayer.status_attr = "status" := rfl
  have hipattr : defaultLayer.in_progress_expiry_attr = "in_progress_expiration" := rfl
  have hsnapB : hgetall (Redis.put_write defaultLayer store0 recA) recB.idempotency_key =
      [("status", RVal.vstr "INPROGRESS"), ("in_progress_expiration", RVal.vint tA)] := by
    rw [hkey, Redis.put_write, hgetall, storeLookup_storeHset_self, habsent]
    simp [Redis.put_mapping, defaultLayer, hstA, hipA, STATUS_CONSTANTS, hashMerge, hashSet]
    decide
  constructor
  · simp [runSched, schedStep, procStep, habsent, Redis.put_check]
  · simp [runSched, schedStep, procStep, habsent, Redis.put_check, hsnapB, hstat, hipattr,
      pyIndex, hget, STATUS_CONSTANTS, intOfRVal, hfuture]

/-- Witness for C2 amended at a concrete serialized run. -/
theorem C2_amended_serialized_exclusion_witness :
    (runSched defaultLayer
        { idempotency_key := "k", status := "INPROGRESS",
          in_progress_expiry_timestamp := some 5000 }
        { idempotency_key := "k", status := "INPROGRESS",
          in_progress_expiry_timestamp := some 6000 }
        1000 [true, true, false, false] []).procA = .finished (.ok ()) ∧
    (runSched defaultLayer
        { idempotency_key := "k", status := "INPROGRESS",
          in_progress_expiry_timestamp := some 5000 }
        { idempotency_key := "k", status := "INPROGRESS",
          in_progress_expiry_timestamp := some 6000 }
        1000 [true, true, false, false] []).procB = .finished (.error .itemAlreadyExistsError) :=
  C2_amended_serialized_exclusion []
    { idempotency_key := "k", status := "INPROGRESS",
      in_progress_expiry_timestamp := some 5000 }
    { idempotency_key := "k", status := "INPROGRESS",
      in_progress_expiry_timestamp := some 6000 }
    1000 5000 rfl rfl rfl rfl (by decide)

end Powertools
